import Mathlib

/-!
Verification of the upstream-client core of the Release-Tracker backend
(`backend/igdb_client.py` and the entity-parsing loops of `backend/server.py`).

The Python client is embedded shallowly:
* `datetime` instants are modelled as `Int` epoch seconds, `time.time()`
  instants as exact rationals (`ℚ`);
* the network is an explicit environment value (`TokenOutcome`,
  `EntityOutcome`) describing what the upstream returns for the single
  request a code path issues;
* stateful methods become pure functions from the client state and the
  environment to a result, the successor state, and (where a claim needs
  it) a trace of observable events;
* Python exceptions become `Except` values.
-/

namespace ReleaseTracker

/-! ## Token manager (`IGDBClient._get_access_token`) -/

/-- Mutable token fields of `IGDBClient`: `self.access_token` and
`self.token_expires_at` (both `None` on a fresh instance). -/
structure TokenState where
  access_token : Option String
  token_expires_at : Option Int
deriving DecidableEq

/-- Parsed JSON body of a token-exchange response: `access_token` plus the
optional `expires_in` field read by `token_data.get("expires_in", 3600)`. -/
structure TokenBody where
  access_token : String
  expires_in : Option Int
deriving DecidableEq

/-- Outcome of the single POST to the token endpoint: a transport-level
`httpx` error, or a response with a status code and a parsed body. -/
inductive TokenOutcome where
  | transportErr (msg : String)
  | resp (status : Nat) (body : TokenBody)
deriving DecidableEq

/-- Success range used by `httpx.Response.raise_for_status` (2xx). -/
def is2xx (status : Nat) : Bool :=
  decide (200 ≤ status) && decide (status ≤ 299)

/-- Guard on line 42 of `igdb_client.py`:
`if self.access_token and self.token_expires_at and datetime.now() < self.token_expires_at`.
Python truthiness makes `self.access_token` pass only when it is a non-empty
string and `self.token_expires_at` only when it is not `None`. -/
def tokenCacheValid (st : TokenState) (now : Int) : Bool :=
  match st.access_token, st.token_expires_at with
  | some tok, some exp => (tok != "") && decide (now < exp)
  | _, _ => false

/-- Message attached to the `IGDBAuthError` raised on line 69
(`f"Authentication failed: {e}"`), rendering the caught `httpx` error. -/
def authFailureDetail : TokenOutcome → String
  | .transportErr msg => "Authentication failed: " ++ msg
  | .resp status _ => "Authentication failed: HTTP " ++ toString status

/-- Result of one call to `_get_access_token`: the returned token or the
raised `IGDBAuthError` message, the token state after the call, and how many
POSTs to the token endpoint were issued. -/
structure TokenFetchResult where
  result : Except String String
  state : TokenState
  networkCalls : Nat

/-- Shallow embedding of `_get_access_token` (lines 40-69). When the cached
token is valid it is returned with no network call; otherwise one POST is
issued: `raise_for_status`/transport failures become `IGDBAuthError` and
leave the state untouched, and a 2xx response stores the new token with
`token_expires_at = now + (expires_in - 300)` (refresh 5 minutes early). -/
def getAccessToken (st : TokenState) (now : Int) (env : TokenOutcome) :
    TokenFetchResult :=
  if tokenCacheValid st now then
    { result := .ok (st.access_token.getD ""), state := st, networkCalls := 0 }
  else
    match env with
    | .transportErr msg =>
        { result := .error ("Authentication failed: " ++ msg),
          state := st, networkCalls := 1 }
    | .resp status body =>
        if is2xx status then
          let expires_in := body.expires_in.getD 3600
          { result := .ok body.access_token,
            state := { access_token := some body.access_token,
                       token_expires_at := some (now + (expires_in - 300)) },
            networkCalls := 1 }
        else
          { result := .error ("Authentication failed: HTTP " ++ toString status),
            state := st, networkCalls := 1 }

/-- Predicate: the token exchange itself failed (transport error or a
non-2xx status), i.e. the paths on which `httpx.HTTPError` is raised. -/
def tokenOutcomeFails : TokenOutcome → Bool
  | .transportErr _ => true
  | .resp status _ => !(is2xx status)

/-! ## Rate limiter (`IGDBClient._rate_limit`) -/

/-- The `request_interval = 1.0 / requests_per_second` computed on line 30. -/
def requestInterval (requests_per_second : ℚ) : ℚ := 1 / requests_per_second

/-- Duration slept by `_rate_limit` (lines 73-78): with
`elapsed = now - last_request_time`, sleep `interval - elapsed` when
`elapsed < interval`, else do not sleep. -/
def rateLimitSleep (interval last now : ℚ) : ℚ :=
  let elapsed := now - last
  if elapsed < interval then interval - elapsed else 0

/-- Value stored into `last_request_time` on line 80: `_rate_limit` re-reads
`time.time()` after the sleep, so with exact sleeping and no scheduling
delay it records `now + sleep`. This is also the moment the rate-limited
request starts. -/
def rateLimitNewLast (interval last now : ℚ) : ℚ :=
  now + rateLimitSleep interval last now

/-- Start times of consecutive calls through `_rate_limit` on one client
instance: `clocks` lists the `time.time()` reading at which each call
enters the limiter, `last` is the stored `last_request_time` before the
first of them; each call starts — and stamps `last_request_time` — at
`rateLimitNewLast`. -/
def startTimes (interval : ℚ) (last : ℚ) : List ℚ → List ℚ
  | [] => []
  | t :: ts => rateLimitNewLast interval last t ::
      startTimes interval (rateLimitNewLast interval last t) ts

/-! ## Query construction (`get_upcoming_games`, `search_games`, `get_platforms`) -/

/-- Python `sep.join(parts)`. -/
def pyJoin (sep : String) : List String → String
  | [] => ""
  | [p] => p
  | p :: q :: ps => p ++ (sep ++ pyJoin sep (q :: ps))

/-- Fields clause of `get_upcoming_games` (line 124). -/
def upcomingFieldsClause : String :=
  "fields name,summary,rating,first_release_date,cover.url,release_dates.date,release_dates.human,release_dates.platform.name,release_dates.platform.abbreviation,platforms.name,platforms.abbreviation"

/-- Date filter of line 125, minus the leading `where `: release date at
least `start_timestamp = now` and strictly below
`end_timestamp = now + days_ahead` days, both in epoch seconds
(`timedelta(days=d)` is exactly `86400 * d` seconds). -/
def windowClause (now : Int) (days_ahead : Int) : String :=
  "release_dates.date >= " ++ (toString now ++
    (" & release_dates.date < " ++ toString (now + 86400 * days_ahead)))

/-- The `" | ".join(str(pid) for pid in platform_ids)` of line 129. -/
def platformDisjunction (platform_ids : List Int) : String :=
  pyJoin " | " (platform_ids.map toString)

/-- Platform clause appended on line 130, minus nothing: exactly the string
`"& release_dates.platform = (…)"` around the disjunction. -/
def platformClause (platform_ids : List Int) : String :=
  "& release_dates.platform = (" ++ (platformDisjunction platform_ids ++ ")")

/-- Python truthiness of `if platform_ids:` (line 128): both `None` and the
empty list are falsy. -/
def truthyPlatformIds : Option (List Int) → Bool
  | none => false
  | some [] => false
  | some (_ :: _) => true

/-- The `query_parts` list assembled on lines 123-135. -/
def upcomingQueryParts (now : Int) (days_ahead limit : Int)
    (platform_ids : Option (List Int)) : List String :=
  let base := [upcomingFieldsClause, "where " ++ windowClause now days_ahead]
  let withPlatforms :=
    if truthyPlatformIds platform_ids then
      base ++ [platformClause (platform_ids.getD [])]
    else base
  withPlatforms ++ ["sort release_dates.date asc", "limit " ++ toString limit]

/-- The query of line 137: `"; ".join(query_parts) + ";"`. -/
def upcomingQuery (now : Int) (days_ahead limit : Int)
    (platform_ids : Option (List Int)) : String :=
  pyJoin "; " (upcomingQueryParts now days_ahead limit platform_ids) ++ ";"

/-- The query of `search_games` (line 152): the search term is interpolated
directly between two double quotes, with no escaping or sanitization. -/
def searchQuery (search_term : String) (limit : Int) : String :=
  "search \"" ++ (search_term ++
    ("\"; fields name,summary,rating,first_release_date,cover.url,platforms.name; limit "
      ++ (toString limit ++ ";")))

/-- The fixed query of `get_platforms` (line 163). -/
def platformsQuery : String :=
  "fields name,abbreviation; where category = (1,5,6); sort name asc; limit 500;"

/-- Characters of a list up to (excluding) the first double quote. -/
def takeUntilQuote : List Char → List Char
  | [] => []
  | c :: cs => if c = '"' then [] else c :: takeUntilQuote cs

/-- The search literal as the upstream query grammar lexes it: the
characters strictly between the opening quote written by `search_games`
(the 8-character prefix `search "`) and the next double quote. -/
def extractSearchLiteral (q : String) : String :=
  String.mk (takeUntilQuote (q.data.drop 8))

/-- Number of clause-terminating semicolons in a query string. -/
def semicolonCount (q : String) : Nat :=
  q.data.countP (fun c => c == ';')

/-! ## Entity request dispatch and classification (`_make_request`) -/

/-- Minimal JSON value model for entity response bodies. -/
inductive Json where
  | null
  | int (n : Int)
  | float (x : ℚ)
  | str (s : String)
  | arr (elems : List Json)
  | obj (fields : List (String × Json))

/-- Outcome of the single POST `_make_request` issues to an entity
endpoint: a transport-level `httpx` error, or a response carrying a status
code and a JSON-array body. -/
inductive EntityOutcome where
  | transportErr (msg : String)
  | resp (status : Nat) (body : List Json)

/-- Errors escaping `_make_request` and the domain operations:
`IGDBRateLimitError` for a 429; the re-raised `httpx.HTTPStatusError`
(carrying the upstream status and message) for any other non-2xx; the
re-raised transport-level `httpx` error; and `IGDBAuthError` bubbling up
from the token manager. -/
inductive RequestError where
  | rateLimit (msg : String)
  | upstreamStatus (status : Nat) (msg : String)
  | upstreamTransport (msg : String)
  | auth (msg : String)

/-- Response classification of `_make_request` (lines 97-108): a 429 raises
`IGDBRateLimitError("Rate limit exceeded")` before `raise_for_status` runs;
any other non-2xx status makes `raise_for_status` raise an
`httpx.HTTPStatusError`, which the `except` block re-raises unchanged, as
it does transport errors; a 2xx response returns the parsed JSON body. -/
def classifyEntityResponse (env : EntityOutcome) :
    Except RequestError (List Json) :=
  match env with
  | .transportErr msg => .error (.upstreamTransport msg)
  | .resp status body =>
      if status == 429 then .error (.rateLimit "Rate limit exceeded")
      else if is2xx status then .ok body
      else .error (.upstreamStatus status ("HTTP " ++ toString status))

/-- Discriminator: the call failed with `IGDBRateLimitError`. -/
def isRateLimitError : Except RequestError (List Json) → Bool
  | .error (.rateLimit _) => true
  | _ => false

/-- Discriminator: the call failed with a generic upstream error (re-raised
`httpx` status or transport error). -/
def isUpstreamError : Except RequestError (List Json) → Bool
  | .error (.upstreamStatus _ _) => true
  | .error (.upstreamTransport _) => true
  | _ => false

/-- Observable effects of one domain-operation call, in order: the
rate-limiter acquisition, any POST to the token endpoint, and any POST to
an entity endpoint together with the query sent and the token carried in
the `Authorization: Bearer` header. -/
inductive Event where
  | acquireSlot
  | tokenEndpointPost
  | entityEndpointPost (endpoint : String) (query : String) (bearer : String)
deriving DecidableEq

/-- Mutable state of an `IGDBClient` relevant to the claims: the token
fields, the fixed `request_interval`, and `last_request_time`. -/
structure ClientState where
  token : TokenState
  request_interval : ℚ
  last_request_time : ℚ

/-- Result of one domain-operation call: the classified outcome, the
successor client state, and the ordered trace of observable events. -/
structure RequestResult where
  result : Except RequestError (List Json)
  state : ClientState
  events : List Event

/-- Shallow embedding of `_make_request` (lines 82-108): first
`await self._rate_limit()` (acquire the slot, stamping
`last_request_time`), then `await self._get_access_token()` (returning the
cached token or POSTing to the token endpoint; on failure the
`IGDBAuthError` propagates and no entity POST happens), then exactly one
POST to `base_url/endpoint` with the query as body and the token as bearer
credential, whose response is classified. `wall` is the `time.time()`
reading, `now` the `datetime.now()` reading. -/
def makeRequest (st : ClientState) (endpoint query : String) (wall : ℚ)
    (now : Int) (tokenEnv : TokenOutcome) (entityEnv : EntityOutcome) :
    RequestResult :=
  let newLast := rateLimitNewLast st.request_interval st.last_request_time wall
  let tf := getAccessToken st.token now tokenEnv
  let st' : ClientState :=
    { token := tf.state, request_interval := st.request_interval,
      last_request_time := newLast }
  let tokenEvents := List.replicate tf.networkCalls Event.tokenEndpointPost
  match tf.result with
  | .error e =>
      { result := .error (.auth e), state := st',
        events := Event.acquireSlot :: tokenEvents }
  | .ok tok =>
      { result := classifyEntityResponse entityEnv, state := st',
        events := Event.acquireSlot ::
          (tokenEvents ++ [Event.entityEndpointPost endpoint query tok]) }

/-- `get_upcoming_games` (lines 110-148): builds its query, then issues it
through `_make_request` against the `games` endpoint. -/
def getUpcomingGames (st : ClientState) (wall : ℚ) (now : Int)
    (days_ahead limit : Int) (platform_ids : Option (List Int))
    (tokenEnv : TokenOutcome) (entityEnv : EntityOutcome) : RequestResult :=
  makeRequest st "games" (upcomingQuery now days_ahead limit platform_ids)
    wall now tokenEnv entityEnv

/-- `search_games` (lines 150-159): builds its query, then issues it
through `_make_request` against the `games` endpoint. -/
def searchGames (st : ClientState) (wall : ℚ) (now : Int)
    (search_term : String) (limit : Int) (tokenEnv : TokenOutcome)
    (entityEnv : EntityOutcome) : RequestResult :=
  makeRequest st "games" (searchQuery search_term limit) wall now tokenEnv
    entityEnv

/-- `get_platforms` (lines 161-170): issues its fixed query through
`_make_request` against the `platforms` endpoint. -/
def getPlatforms (st : ClientState) (wall : ℚ) (now : Int)
    (tokenEnv : TokenOutcome) (entityEnv : EntityOutcome) : RequestResult :=
  makeRequest st "platforms" platformsQuery wall now tokenEnv entityEnv

/-- Number of entity-endpoint POSTs in an event trace. -/
def entityPostCount (evs : List Event) : Nat :=
  evs.countP (fun e =>
    match e with
    | .entityEndpointPost _ _ _ => true
    | _ => false)

/-! ## Entity parsing (`models.py` records, `server.py` conversion loops) -/

/-- Lookup of a key in a JSON object's field list. -/
def getField (fields : List (String × Json)) (k : String) : Option Json :=
  (fields.find? (fun kv => kv.1 == k)).map (fun kv => kv.2)

/-- Pydantic `int` field: accepts a JSON integer. -/
def asInt : Json → Option Int
  | .int n => some n
  | _ => none

/-- Pydantic `str` field: accepts a JSON string (numbers are coerced to
their decimal rendering, as pydantic's `str` type does). -/
def asStr : Json → Option String
  | .str s => some s
  | .int n => some (toString n)
  | _ => none

/-- Pydantic `float` field: accepts a JSON float or integer. -/
def asFloat : Json → Option ℚ
  | .float x => some x
  | .int n => some (n : ℚ)
  | _ => none

/-- Datetime field guarded by the `pre=True` timestamp validators of
`models.py`: an integer is taken as epoch seconds
(`datetime.fromtimestamp`); other shapes are rejected at this boundary. -/
def asEpoch : Json → Option Int
  | .int n => some n
  | _ => none

/-- A required pydantic field: absent or invalid values fail the record. -/
def reqField (fields : List (String × Json)) (k : String)
    (conv : Json → Option α) : Option α :=
  match getField fields k with
  | none => none
  | some v => conv v

/-- An `Optional[...] = None` pydantic field: absent or `null` yields
`none`; a present value must convert, else the whole record fails. -/
def optField (fields : List (String × Json)) (k : String)
    (conv : Json → Option α) : Option (Option α) :=
  match getField fields k with
  | none => some none
  | some .null => some none
  | some v =>
      match conv v with
      | some a => some (some a)
      | none => none

/-- A `List[...] = []` pydantic field: absent yields `[]`; a present value
must be an array all of whose elements convert. -/
def listField (fields : List (String × Json)) (k : String)
    (conv : Json → Option α) : Option (List α) :=
  match getField fields k with
  | none => some []
  | some (.arr xs) => xs.mapM conv
  | some _ => none

/-- `models.Platform`. -/
structure Platform where
  id : Int
  name : String
  abbreviation : Option String
deriving DecidableEq

/-- `models.GameCover`. -/
structure GameCover where
  id : Int
  url : Option String
deriving DecidableEq

/-- `models.ReleaseDate` (`date` already converted to epoch seconds). -/
structure ReleaseDate where
  id : Int
  date : Option Int
  human : Option String
  platform : Option Platform
  region : Option Int
deriving DecidableEq

/-- `models.Game` (datetimes as epoch seconds, `rating` as an exact
rational). -/
structure Game where
  id : Int
  name : String
  summary : Option String
  rating : Option ℚ
  first_release_date : Option Int
  release_dates : List ReleaseDate
  platforms : List Platform
  cover : Option GameCover
deriving DecidableEq

/-- Validation of `models.Platform` on one JSON value. -/
def parsePlatform : Json → Option Platform
  | .obj fields => do
      let id ← reqField fields "id" asInt
      let name ← reqField fields "name" asStr
      let abbreviation ← optField fields "abbreviation" asStr
      some ⟨id, name, abbreviation⟩
  | _ => none

/-- Validation of `models.GameCover` on one JSON value. -/
def parseGameCover : Json → Option GameCover
  | .obj fields => do
      let id ← reqField fields "id" asInt
      let url ← optField fields "url" asStr
      some ⟨id, url⟩
  | _ => none

/-- Validation of `models.ReleaseDate` on one JSON value. -/
def parseReleaseDate : Json → Option ReleaseDate
  | .obj fields => do
      let id ← reqField fields "id" asInt
      let date ← optField fields "date" asEpoch
      let human ← optField fields "human" asStr
      let platform ← optField fields "platform" parsePlatform
      let region ← optField fields "region" asInt
      some ⟨id, date, human, platform, region⟩
  | _ => none

/-- Validation of `models.Game` on one JSON value — the `Game(**game_data)`
call of `server.py`. -/
def parseGame : Json → Option Game
  | .obj fields => do
      let id ← reqField fields "id" asInt
      let name ← reqField fields "name" asStr
      let summary ← optField fields "summary" asStr
      let rating ← optField fields "rating" asFloat
      let first_release_date ← optField fields "first_release_date" asEpoch
      let release_dates ← listField fields "release_dates" parseReleaseDate
      let platforms ← listField fields "platforms" parsePlatform
      let cover ← optField fields "cover" parseGameCover
      some ⟨id, name, summary, rating, first_release_date, release_dates,
            platforms, cover⟩
  | _ => none

/-- The conversion loop of `server.py` (lines 121-128, 151-156, 195-202):
for each element of the batch, try `Game(**game_data)`; append on success,
log and `continue` on failure. -/
def parseGames (batch : List Json) : List Game :=
  batch.filterMap parseGame

/-- A batch of 10 raw entities whose sixth element is malformed (its
required `name` field is missing); the rest are valid. -/
def sampleBatch : List Json :=
  [Json.obj [("id", Json.int 1), ("name", Json.str "Game A")],
   Json.obj [("id", Json.int 2), ("name", Json.str "Game B")],
   Json.obj [("id", Json.int 3), ("name", Json.str "Game C")],
   Json.obj [("id", Json.int 4), ("name", Json.str "Game D")],
   Json.obj [("id", Json.int 5), ("name", Json.str "Game E")],
   Json.obj [("id", Json.int 6)],
   Json.obj [("id", Json.int 7), ("name", Json.str "Game G")],
   Json.obj [("id", Json.int 8), ("name", Json.str "Game H")],
   Json.obj [("id", Json.int 9), ("name", Json.str "Game I")],
   Json.obj [("id", Json.int 10), ("name", Json.str "Game J")]]

/-! ## Substring occurrence -/

/-- `t` occurs contiguously in `s`. -/
def containsSubstr (s t : String) : Prop :=
  ∃ p q : String, s = p ++ (t ++ q)

end ReleaseTracker

open ReleaseTracker

/-! ## C1 — early-refresh margin for short `expires_in` -/

/-- C1 counterexample: with an empty cache at `now = 1000`, a 2xx token
response with `expires_in = 100` is stored with
`token_expires_at = 1000 + (100 - 300) = 800`, which is NOT strictly greater
than `now`: the token is cached already expired, so no clamping occurs. -/
theorem short_expiry_not_clamped :
    (getAccessToken ⟨none, none⟩ 1000
        (.resp 200 ⟨"tok", some 100⟩)).state.token_expires_at = some 800 ∧
    ¬ ((1000 : Int) < 800) := by
  constructor
  · rfl
  · decide

/-- C1 (amended): for every token-exchange 2xx response with
`expires_in ≤ 300` handled on the refresh path, the stored `expires_at`
equals `now + (expires_in - 300)` and hence is never strictly greater than
`now`: the code applies no clamp, and the token is cached already expired. -/
theorem short_expiry_stored_in_past (st : TokenState) (now : Int)
    (status : Nat) (body : TokenBody)
    (hmiss : tokenCacheValid st now = false)
    (h2xx : is2xx status = true)
    (hshort : body.expires_in.getD 3600 ≤ 300) :
    (getAccessToken st now (.resp status body)).state.token_expires_at =
      some (now + (body.expires_in.getD 3600 - 300)) ∧
    now + (body.expires_in.getD 3600 - 300) ≤ now := by
  constructor
  · simp [getAccessToken, hmiss, h2xx]
  · omega

/-- C1 amended-claim witness at `now = 1000`, `expires_in = 100`. -/
theorem short_expiry_stored_in_past_witness :
    (getAccessToken ⟨none, none⟩ 1000
        (.resp 200 ⟨"tok", some 100⟩)).state.token_expires_at =
      some (1000 + ((100 : Int) - 300)) ∧
    (1000 : Int) + (100 - 300) ≤ 1000 :=
  short_expiry_stored_in_past ⟨none, none⟩ 1000 200 ⟨"tok", some 100⟩
    (by decide) (by decide) (by decide)

/-! ## C4 — valid cached token is returned with no network call -/

/-- C4: whenever the client holds a cached token (a non-empty
`access_token`, which is exactly what the Python truthiness test
`if self.access_token` requires for the token to count as present) and a
`token_expires_at` with `now < expires_at`, `_get_access_token` returns that
token, issues zero POSTs to the token endpoint, and leaves the token state
unchanged — for any behaviour of the network environment. -/
theorem cached_token_fast_path (st : TokenState) (now : Int)
    (env : TokenOutcome) (s : String) (e : Int)
    (htok : st.access_token = some s) (hne : s ≠ "")
    (hexp : st.token_expires_at = some e) (hnow : now < e) :
    getAccessToken st now env = ⟨.ok s, st, 0⟩ := by
  have hvalid : tokenCacheValid st now = true := by
    simp [tokenCacheValid, htok, hexp, hne, hnow]
  simp [getAccessToken, hvalid, htok]

/-- C4 witness: a concrete state with token `"abc"` expiring at `2000`,
queried at `now = 1500`, returns `"abc"` with zero network calls and an
unchanged state, even when the environment would answer with a 500. -/
theorem cached_token_fast_path_witness :
    getAccessToken ⟨some "abc", some 2000⟩ 1500
        (.resp 500 ⟨"", none⟩) =
      ⟨.ok "abc", ⟨some "abc", some 2000⟩, 0⟩ :=
  cached_token_fast_path ⟨some "abc", some 2000⟩ 1500
    (.resp 500 ⟨"", none⟩) "abc" 2000 rfl (by decide) rfl (by decide)

/-! ## C5 — failed exchange raises `AuthError`, state untouched -/

/-- C5: on the refresh path, every credential exchange that ends in a
transport error or a non-2xx response makes `_get_access_token` fail with
the `IGDBAuthError` message rendering the upstream failure, after exactly
one token-endpoint POST, and leaves the cached token state exactly as it
was — no partial or invalid token is stored. -/
theorem failed_exchange_auth_error (st : TokenState) (now : Int)
    (env : TokenOutcome)
    (hmiss : tokenCacheValid st now = false)
    (hfail : tokenOutcomeFails env = true) :
    getAccessToken st now env = ⟨.error (authFailureDetail env), st, 1⟩ := by
  cases env with
  | transportErr msg =>
      simp [getAccessToken, hmiss, authFailureDetail]
  | resp status body =>
      have h : is2xx status = false := by
        simpa [tokenOutcomeFails] using hfail
      simp [getAccessToken, hmiss, h, authFailureDetail]

/-- C5 witness: an empty cache and a 401 response yield the auth error for
HTTP 401, one network call, and an unchanged (still empty) token state. -/
theorem failed_exchange_auth_error_witness :
    getAccessToken ⟨none, none⟩ 1000 (.resp 401 ⟨"", none⟩) =
      ⟨.error (authFailureDetail (.resp 401 ⟨"", none⟩)), ⟨none, none⟩, 1⟩ :=
  failed_exchange_auth_error ⟨none, none⟩ 1000 (.resp 401 ⟨"", none⟩)
    (by decide) (by decide)

/-! ## C3 — minimum spacing between request starts -/

/-- Helper: one pass through `_rate_limit` never stamps a
`last_request_time` earlier than the previous stamp plus the interval. -/
theorem rateLimitNewLast_ge (interval last now : ℚ) :
    last + interval ≤ rateLimitNewLast interval last now := by
  unfold rateLimitNewLast rateLimitSleep
  by_cases h : now - last < interval
  · simp only [h, if_true]
    linarith
  · simp only [h, if_false]
    linarith

/-- Helper: every start time in a run of the limiter is at least the
previous stamped time plus the interval. -/
theorem startTimes_chain (interval : ℚ) (clocks : List ℚ) :
    ∀ last : ℚ, List.Chain (fun a b => a + interval ≤ b) last
      (startTimes interval last clocks) := by
  induction clocks with
  | nil => exact fun _ => List.Chain.nil
  | cons t ts ih =>
      exact fun last =>
        List.Chain.cons (rateLimitNewLast_ge interval last t)
          (ih (rateLimitNewLast interval last t))

/-- C3: for every sequence of consecutive calls through the rate limiter on
one client instance (arbitrary clock readings `clocks`, arbitrary initial
`last_request_time`), consecutive request start times are separated by at
least `request_interval = 1 / requests_per_second`: each call computes the
elapsed time, sleeps for the remainder of the interval when the elapsed
time is smaller, and then stamps the current time, which yields the claimed
minimum spacing. -/
theorem rate_limiter_min_spacing (requests_per_second last : ℚ)
    (clocks : List ℚ) :
    List.Chain' (fun a b => a + requestInterval requests_per_second ≤ b)
      (startTimes (requestInterval requests_per_second) last clocks) := by
  cases clocks with
  | nil => exact List.chain'_nil
  | cons t ts =>
      show List.Chain'
        (fun a b => a + requestInterval requests_per_second ≤ b)
        (rateLimitNewLast (requestInterval requests_per_second) last t ::
          startTimes (requestInterval requests_per_second)
            (rateLimitNewLast (requestInterval requests_per_second) last t) ts)
      exact startTimes_chain (requestInterval requests_per_second) ts
        (rateLimitNewLast (requestInterval requests_per_second) last t)

/-! ## C10 — a fresh client never sleeps on its first call -/

/-- C10: on a freshly constructed client, `last_request_time` is the
sentinel `0.0`, so the first pass through `_rate_limit` sleeps for `0` and
starts the request at the current clock reading, provided only that the
clock reading is at least the request interval (true of any realistic
wall-clock epoch value against a sub-second interval). -/
theorem fresh_client_first_call_no_sleep (interval now : ℚ)
    (h : interval ≤ now) :
    rateLimitSleep interval 0 now = 0 ∧
    rateLimitNewLast interval 0 now = now := by
  have hs : rateLimitSleep interval 0 now = 0 := by
    unfold rateLimitSleep
    have : ¬ (now - 0 < interval) := by linarith
    simp only [this, if_false]
  exact ⟨hs, by unfold rateLimitNewLast; rw [hs]; ring⟩

/-- C10 witness: with the default `requests_per_second = 3.5` (interval
`2/7` s) and a realistic epoch clock of `1700000000` s, the first call
sleeps `0` and starts immediately. -/
theorem fresh_client_first_call_no_sleep_witness :
    requestInterval (7 / 2) ≤ (1700000000 : ℚ) ∧
    (rateLimitSleep (requestInterval (7 / 2)) 0 1700000000 = 0 ∧
      rateLimitNewLast (requestInterval (7 / 2)) 0 1700000000 = 1700000000) :=
  ⟨by norm_num [requestInterval],
    fresh_client_first_call_no_sleep (requestInterval (7 / 2)) 1700000000
      (by norm_num [requestInterval])⟩

/-! ## Substring helper lemmas -/

/-- Helper: the middle factor of an explicit split is a substring. -/
theorem containsSubstr_at (x t y : String) : containsSubstr ((x ++ t) ++ y) t :=
  ⟨x, y, String.append_assoc x t y⟩

/-- Helper: a string is a substring of itself. -/
theorem containsSubstr_self (t : String) : containsSubstr t t :=
  ⟨"", "", by rw [String.append_empty, String.empty_append]⟩

/-- Helper: a prefix factor is a substring. -/
theorem containsSubstr_head (t y : String) : containsSubstr (t ++ y) t :=
  ⟨"", y, (String.empty_append (t ++ y)).symm⟩

/-- Helper: substring occurrence survives extending on the left. -/
theorem containsSubstr_left (x : String) {s t : String}
    (h : containsSubstr s t) : containsSubstr (x ++ s) t := by
  obtain ⟨p, q, hs⟩ := h
  exact ⟨x ++ p, q, by rw [hs, String.append_assoc]⟩

/-- Helper: substring occurrence survives extending on the right. -/
theorem containsSubstr_right (y : String) {s t : String}
    (h : containsSubstr s t) : containsSubstr (s ++ y) t := by
  obtain ⟨p, q, hs⟩ := h
  exact ⟨p, q ++ y, by rw [hs, String.append_assoc, String.append_assoc]⟩

/-! ## C6 — upcoming-releases query contents -/

/-- Helper: with a non-empty platform list the built query is exactly the
fields clause, the date-window filter, the platform clause, the sort clause
and the limit clause, joined by `"; "` and terminated by `";"`. -/
theorem upcoming_query_shape (now days_ahead limit : Int) (p : Int)
    (ps : List Int) :
    upcomingQuery now days_ahead limit (some (p :: ps)) =
      (upcomingFieldsClause ++ ("; " ++
        (("where " ++ windowClause now days_ahead) ++ ("; " ++
          (platformClause (p :: ps) ++ ("; " ++
            ("sort release_dates.date asc" ++ ("; " ++
              ("limit " ++ toString limit))))))))) ++ ";" := rfl

/-- C6: for every `days_ahead`, `limit` and non-empty `platform_ids`, the
query built by `get_upcoming_games` contains the date filter restricting
the release date to the half-open window `[now, now + days_ahead days)` in
unix timestamps, the conjoined (`&`) platform-id disjunction over exactly
the given ids, the ascending release-date sort clause, and a limit clause
equal to the given limit. -/
theorem upcoming_query_filter (now days_ahead limit : Int)
    (pids : List Int) (h : pids ≠ []) :
    containsSubstr (upcomingQuery now days_ahead limit (some pids))
      (windowClause now days_ahead) ∧
    containsSubstr (upcomingQuery now days_ahead limit (some pids))
      (platformClause pids) ∧
    containsSubstr (upcomingQuery now days_ahead limit (some pids))
      "sort release_dates.date asc" ∧
    containsSubstr (upcomingQuery now days_ahead limit (some pids))
      ("limit " ++ toString limit) := by
  obtain ⟨p, ps, rfl⟩ : ∃ p ps, pids = p :: ps := by
    cases pids with
    | nil => exact absurd rfl h
    | cons p ps => exact ⟨p, ps, rfl⟩
  rw [upcoming_query_shape]
  refine ⟨?_, ?_, ?_, ?_⟩
  · exact containsSubstr_right _ (containsSubstr_left _ (containsSubstr_left _
      (containsSubstr_at _ _ _)))
  · exact containsSubstr_right _ (containsSubstr_left _ (containsSubstr_left _
      (containsSubstr_left _ (containsSubstr_left _
        (containsSubstr_head _ _)))))
  · exact containsSubstr_right _ (containsSubstr_left _ (containsSubstr_left _
      (containsSubstr_left _ (containsSubstr_left _ (containsSubstr_left _
        (containsSubstr_left _ (containsSubstr_head _ _)))))))
  · exact containsSubstr_right _ (containsSubstr_left _ (containsSubstr_left _
      (containsSubstr_left _ (containsSubstr_left _ (containsSubstr_left _
        (containsSubstr_left _ (containsSubstr_left _ (containsSubstr_left _
          (containsSubstr_self _)))))))))

/-- C6 witness at `now = 1700000000`, `days_ahead = 90`, `limit = 50`,
`platform_ids = [6, 48]`: the window clause and the platform disjunction
evaluate to the expected concrete strings and both occur in the query. -/
theorem upcoming_query_filter_witness :
    ([6, 48] ≠ ([] : List Int)) ∧
    windowClause 1700000000 90 =
      "release_dates.date >= 1700000000 & release_dates.date < 1707776000" ∧
    platformClause [6, 48] = "& release_dates.platform = (6 | 48)" ∧
    (containsSubstr (upcomingQuery 1700000000 90 50 (some [6, 48]))
        (windowClause 1700000000 90) ∧
      containsSubstr (upcomingQuery 1700000000 90 50 (some [6, 48]))
        (platformClause [6, 48]) ∧
      containsSubstr (upcomingQuery 1700000000 90 50 (some [6, 48]))
        "sort release_dates.date asc" ∧
      containsSubstr (upcomingQuery 1700000000 90 50 (some [6, 48]))
        ("limit " ++ toString (50 : Int))) :=
  ⟨by decide, rfl, rfl,
    upcoming_query_filter 1700000000 90 50 [6, 48] (by decide)⟩

/-! ## C9 — search-term interpolation and quote injection -/

/-- C9: `search_games` builds its query by direct interpolation of the
search term inside a double-quoted literal with no escaping (first
conjunct, for every term and limit); consequently a term containing a
double quote breaks out of the literal: for the concrete term
`x"; where id = (7)`, the lexed search literal is just `x`, which differs
from the term, and the remaining characters of the term re-enter the query
grammar — the query gains a fourth clause-terminating semicolon where a
benign term yields three. -/
theorem search_query_injection :
    (∀ (term : String) (limit : Int),
      searchQuery term limit =
        "search \"" ++ (term ++
          ("\"; fields name,summary,rating,first_release_date,cover.url,platforms.name; limit "
            ++ (toString limit ++ ";")))) ∧
    extractSearchLiteral (searchQuery "x\"; where id = (7)" 20) = "x" ∧
    "x" ≠ "x\"; where id = (7)" ∧
    semicolonCount (searchQuery "x\"; where id = (7)" 20) = 4 ∧
    semicolonCount (searchQuery "x" 20) = 3 := by
  refine ⟨fun _ _ => rfl, ?_, ?_, ?_, ?_⟩ <;> decide

/-! ## C2 — entity-response error classification -/

/-- C2: classification of entity-query outcomes by `_make_request`: an HTTP
429 fails with `IGDBRateLimitError` and never with the generic upstream
error; every other non-2xx status fails with the re-raised upstream status
error carrying that status and its message, and a transport failure with
the re-raised transport error; and no non-429 outcome — status or
transport — ever surfaces as the rate-limit error. -/
theorem entity_response_classification (status : Nat) (body : List Json)
    (msg : String) :
    classifyEntityResponse (.resp 429 body) =
      .error (.rateLimit "Rate limit exceeded") ∧
    isUpstreamError (classifyEntityResponse (.resp 429 body)) = false ∧
    (status ≠ 429 → is2xx status = false →
      classifyEntityResponse (.resp status body) =
        .error (.upstreamStatus status ("HTTP " ++ toString status))) ∧
    classifyEntityResponse (.transportErr msg) =
      .error (.upstreamTransport msg) ∧
    (isRateLimitError (classifyEntityResponse (.resp status body)) = true →
      status = 429) ∧
    isRateLimitError (classifyEntityResponse (.transportErr msg)) = false := by
  refine ⟨rfl, rfl, ?_, rfl, ?_, rfl⟩
  · intro h1 h2
    have hb : (status == 429) = false := beq_eq_false_iff_ne.mpr h1
    simp [classifyEntityResponse, hb, h2]
  · intro h
    by_contra hne
    have hb : (status == 429) = false := beq_eq_false_iff_ne.mpr hne
    cases h2 : is2xx status <;>
      simp [classifyEntityResponse, hb, h2, isRateLimitError] at h

/-- C2 witness: a 500 response classifies as the upstream status error for
HTTP 500, and a 429 response classifies as the rate-limit error. -/
theorem entity_response_classification_witness :
    classifyEntityResponse (.resp 500 []) =
      .error (.upstreamStatus 500 ("HTTP " ++ toString 500)) ∧
    classifyEntityResponse (.resp 429 []) =
      .error (.rateLimit "Rate limit exceeded") :=
  ⟨(entity_response_classification 500 [] "boom").2.2.1 (by decide) (by decide),
   (entity_response_classification 500 [] "boom").1⟩

/-! ## C7 — per-entity parse failures are skipped -/

/-- Helper: length bookkeeping of the skip-on-failure conversion loop. -/
theorem parseGames_length_add_failures (batch : List Json) :
    (parseGames batch).length +
      batch.countP (fun g => (parseGame g).isNone) = batch.length := by
  induction batch with
  | nil => rfl
  | cons g gs ih =>
      cases h : parseGame g with
      | none =>
          simp [parseGames, List.filterMap_cons, h, List.countP_cons]
            at ih ⊢
          omega
      | some x =>
          simp [parseGames, List.filterMap_cons, h, List.countP_cons]
            at ih ⊢
          omega

/-- C7: in every successfully returned batch, elements failing to parse
into the `Game` record are individually skipped and the rest are returned
without a fatal error; in particular a batch of 10 elements with exactly
one malformed element yields exactly 9 parsed entities. -/
theorem per_entity_failures_skipped (batch : List Json)
    (hlen : batch.length = 10)
    (hbad : batch.countP (fun g => (parseGame g).isNone) = 1) :
    (parseGames batch).length = 9 := by
  have h := parseGames_length_add_failures batch
  omega

/-- C7 witness: `sampleBatch` has 10 elements of which exactly one (missing
its required `name`) fails to parse, and parsing yields exactly 9 games. -/
theorem per_entity_failures_skipped_witness :
    (sampleBatch.length = 10 ∧
      sampleBatch.countP (fun g => (parseGame g).isNone) = 1) ∧
    (parseGames sampleBatch).length = 9 :=
  ⟨⟨rfl, rfl⟩, per_entity_failures_skipped sampleBatch rfl rfl⟩

/-! ## C8 — operation protocol: slot, token, one bearer POST -/

/-- Helper: token-endpoint POSTs contribute no entity-endpoint POSTs. -/
theorem entityPostCount_replicate (n : Nat) :
    entityPostCount (List.replicate n Event.tokenEndpointPost) = 0 := by
  simp [entityPostCount, List.countP_replicate]

/-- Helper: protocol shape of one `_make_request` call: the rate-limiter
slot is the first event (before the token check and any token POST), at
most one entity POST happens, and when the token manager yields a token
the trace is exactly slot, token traffic, then one entity POST carrying
the query and that token as bearer. -/
theorem makeRequest_protocol (st : ClientState) (endpoint query : String)
    (wall : ℚ) (now : Int) (tokenEnv : TokenOutcome)
    (entityEnv : EntityOutcome) :
    (makeRequest st endpoint query wall now tokenEnv entityEnv).events.head? =
      some Event.acquireSlot ∧
    entityPostCount
      (makeRequest st endpoint query wall now tokenEnv entityEnv).events ≤ 1 ∧
    (∀ tok, (getAccessToken st.token now tokenEnv).result = .ok tok →
      (makeRequest st endpoint query wall now tokenEnv entityEnv).events =
        Event.acquireSlot ::
          (List.replicate (getAccessToken st.token now tokenEnv).networkCalls
              Event.tokenEndpointPost ++
            [Event.entityEndpointPost endpoint query tok])) := by
  cases h : (getAccessToken st.token now tokenEnv).result with
  | error e =>
      refine ⟨?_, ?_, ?_⟩
      · simp [makeRequest, h]
      · simp [makeRequest, h, entityPostCount, List.countP_cons,
          List.countP_replicate]
      · intro tok htok
        exact Except.noConfusion htok
  | ok tok =>
      refine ⟨?_, ?_, ?_⟩
      · simp [makeRequest, h]
      · simp [makeRequest, h, entityPostCount, List.countP_cons,
          List.countP_append, List.countP_replicate]
      · intro tok' htok'
        injection htok' with he
        subst he
        simp [makeRequest, h]

/-- C8: each domain operation — upcoming releases, search by name, fetch
platforms — builds its query, then acquires the rate-limiter slot (the
first observable event, before the token check and any token-endpoint
POST), then obtains a token, and issues at most one entity-endpoint POST;
when a valid token is obtained it issues exactly one POST to its endpoint
(`games` for releases and search, `platforms` for platforms) carrying the
built query and the token as the bearer credential, as the final event. -/
theorem domain_ops_protocol (st : ClientState) (wall : ℚ) (now : Int)
    (days_ahead limit : Int) (platform_ids : Option (List Int))
    (search_term : String) (search_limit : Int) (tokenEnv : TokenOutcome)
    (entityEnv : EntityOutcome) :
    ((getUpcomingGames st wall now days_ahead limit platform_ids tokenEnv
          entityEnv).events.head? = some Event.acquireSlot ∧
      entityPostCount (getUpcomingGames st wall now days_ahead limit
          platform_ids tokenEnv entityEnv).events ≤ 1 ∧
      (∀ tok, (getAccessToken st.token now tokenEnv).result = .ok tok →
        (getUpcomingGames st wall now days_ahead limit platform_ids tokenEnv
            entityEnv).events =
          Event.acquireSlot ::
            (List.replicate
                (getAccessToken st.token now tokenEnv).networkCalls
                Event.tokenEndpointPost ++
              [Event.entityEndpointPost "games"
                (upcomingQuery now days_ahead limit platform_ids) tok]))) ∧
    ((searchGames st wall now search_term search_limit tokenEnv
          entityEnv).events.head? = some Event.acquireSlot ∧
      entityPostCount (searchGames st wall now search_term search_limit
          tokenEnv entityEnv).events ≤ 1 ∧
      (∀ tok, (getAccessToken st.token now tokenEnv).result = .ok tok →
        (searchGames st wall now search_term search_limit tokenEnv
            entityEnv).events =
          Event.acquireSlot ::
            (List.replicate
                (getAccessToken st.token now tokenEnv).networkCalls
                Event.tokenEndpointPost ++
              [Event.entityEndpointPost "games"
                (searchQuery search_term search_limit) tok]))) ∧
    ((getPlatforms st wall now tokenEnv entityEnv).events.head? =
        some Event.acquireSlot ∧
      entityPostCount (getPlatforms st wall now tokenEnv
          entityEnv).events ≤ 1 ∧
      (∀ tok, (getAccessToken st.token now tokenEnv).result = .ok tok →
        (getPlatforms st wall now tokenEnv entityEnv).events =
          Event.acquireSlot ::
            (List.replicate
                (getAccessToken st.token now tokenEnv).networkCalls
                Event.tokenEndpointPost ++
              [Event.entityEndpointPost "platforms" platformsQuery tok]))) :=
  ⟨makeRequest_protocol st "games"
      (upcomingQuery now days_ahead limit platform_ids) wall now tokenEnv
      entityEnv,
    makeRequest_protocol st "games" (searchQuery search_term search_limit)
      wall now tokenEnv entityEnv,
    makeRequest_protocol st "platforms" platformsQuery wall now tokenEnv
      entityEnv⟩

/-- C8 witness: on an empty-cache client, a successful token exchange for
`"tok"` makes each operation's trace exactly the slot acquisition, one
token POST, then one entity POST carrying the built query and bearer
`"tok"`. -/
theorem domain_ops_protocol_witness :
    (getUpcomingGames ⟨⟨none, none⟩, 2 / 7, 0⟩ 10 1000 90 50 (some [6, 48])
        (.resp 200 ⟨"tok", some 3600⟩) (.resp 200 [])).events =
      [Event.acquireSlot, Event.tokenEndpointPost,
        Event.entityEndpointPost "games"
          (upcomingQuery 1000 90 50 (some [6, 48])) "tok"] ∧
    (getPlatforms ⟨⟨none, none⟩, 2 / 7, 0⟩ 10 1000
        (.resp 200 ⟨"tok", some 3600⟩) (.resp 200 [])).events =
      [Event.acquireSlot, Event.tokenEndpointPost,
        Event.entityEndpointPost "platforms" platformsQuery "tok"] :=
  ⟨(domain_ops_protocol ⟨⟨none, none⟩, 2 / 7, 0⟩ 10 1000 90 50 (some [6, 48])
        "x" 20 (.resp 200 ⟨"tok", some 3600⟩) (.resp 200 [])).1.2.2 "tok" rfl,
    (domain_ops_protocol ⟨⟨none, none⟩, 2 / 7, 0⟩ 10 1000 90 50 (some [6, 48])
        "x" 20 (.resp 200 ⟨"tok", some 3600⟩) (.resp 200 [])).2.2.2.2 "tok"
      rfl⟩

/-- C3 witness: the minimum-spacing chain at the default rate
(`requests_per_second = 3.5`), a fresh `last_request_time = 0`, and three
concrete clock readings. -/
theorem rate_limiter_min_spacing_witness :
    List.Chain' (fun a b => a + requestInterval (7 / 2) ≤ b)
      (startTimes (requestInterval (7 / 2)) 0 [1, 2, 3]) :=
  rate_limiter_min_spacing (7 / 2) 0 [1, 2, 3]

/-- C9 witness: the lexed search literal for the quote-carrying term is
just `x`, extracted from the theorem. -/
theorem search_query_injection_witness :
    extractSearchLiteral (searchQuery "x\"; where id = (7)" 20) = "x" :=
  search_query_injection.2.1
